import Mathlib

/-!
Verification of the btc-data-feed pipeline (src/fetch_data.py).

The program is shallowly embedded over `ℚ` (Python floats become exact
rationals), `List ℚ` (Python lists), and explicit result types for the
network adapters (a fetch either fails — network error, non-2xx status,
bad payload — or returns parsed data).  Python's `round(x, n)` is
round-half-to-even, embedded as `pyRound2`/`roundTo`.  The report is
embedded structurally: each interpolated field of the output f-string
becomes a `PyFmt` value recording the rendered quantity together with the
format specifier used (`.fixed d` for `:.df`, `.plain`/`.plainList` for
bare `{x}` interpolation, i.e. Python default repr).  Unrecovered Python
exceptions in `main` (IndexError on `[-1]`, ZeroDivisionError) are
embedded by running `main` in `Except PyError`.
-/

namespace BtcFeed

/-! ## Python rounding (`round(x, d)`, round-half-to-even) -/

/-- Python `round` to an integer: round-half-to-even.  The floor is computed
as `q.num / q.den` (Lean's integer division on `ℤ` is floor division for a
positive denominator), which keeps the definition kernel-computable. -/
def pyRound2 (q : ℚ) : ℤ :=
  let f : ℤ := q.num / (q.den : ℤ)
  let r : ℚ := q - (f : ℚ)
  if r < 1/2 then f
  else if 1/2 < r then f + 1
  else if f % 2 = 0 then f else f + 1

/-- Python `round(q, d)`. -/
def roundTo (d : ℕ) (q : ℚ) : ℚ := (pyRound2 (q * 10 ^ d) : ℚ) / 10 ^ d

/-! ## Indicator engine (lines 107-128 of src/fetch_data.py) -/

/-- The loop body of `calculate_ema`: `ema.append(price * k + ema[-1] * (1 - k))`. -/
def emaStep (k : ℚ) (prev : ℚ) : List ℚ → List ℚ
  | [] => []
  | p :: ps =>
    let v := p * k + prev * (1 - k)
    v :: emaStep k v ps

/-- Embeds `calculate_ema(prices, period)`: seed with the first element, then the
exponential recurrence with multiplier `2 / (period + 1)`.  (Python raises
IndexError on an empty list; callers only pass non-empty series, and the
empty case is mapped to `[]`.) -/
def calculate_ema (prices : List ℚ) (period : ℕ) : List ℚ :=
  match prices with
  | [] => []
  | p :: ps => p :: emaStep (2 / ((period : ℚ) + 1)) p ps

/-- Python `lst[-1]` on the non-empty lists this program indexes. -/
def lastD (l : List ℚ) : ℚ := l.getLast?.getD 0

/-- Embeds `calculate_macd(prices)`: final EMA(12) minus final EMA(26). -/
def calculate_macd (prices : List ℚ) : ℚ :=
  lastD (calculate_ema prices 12) - lastD (calculate_ema prices 26)

/-- Embeds `deltas = [prices[i] - prices[i-1] for i in range(1, len(prices))]`. -/
def deltasOf (prices : List ℚ) : List ℚ :=
  (List.zip prices.tail prices).map fun p => p.1 - p.2

/-- Embeds `deltas[-period:]` (every caller has `len(deltas) ≥ period`). -/
def lastDeltasOf (prices : List ℚ) (period : ℕ) : List ℚ :=
  (deltasOf prices).drop ((deltasOf prices).length - period)

/-- Embeds `gains = [d if d > 0 else 0 for d in deltas[-period:]]`. -/
def gainsOf (ds : List ℚ) : List ℚ := ds.map fun d => if d > 0 then d else 0

/-- Embeds `losses = [-d if d < 0 else 0 for d in deltas[-period:]]`. -/
def lossesOf (ds : List ℚ) : List ℚ := ds.map fun d => if d < 0 then -d else 0

/-- Embeds `avg_gain = sum(gains) / period`. -/
def avgGain (ds : List ℚ) (period : ℕ) : ℚ := (gainsOf ds).sum / (period : ℚ)

/-- Embeds `avg_loss = sum(losses) / period if sum(losses) > 0 else 1`. -/
def avgLoss (ds : List ℚ) (period : ℕ) : ℚ :=
  if (lossesOf ds).sum > 0 then (lossesOf ds).sum / (period : ℚ) else 1

/-- Embeds `calculate_rsi(prices, period)`. -/
def calculate_rsi (prices : List ℚ) (period : ℕ) : ℚ :=
  if prices.length < period + 1 then 50
  else
    100 - 100 / (1 + avgGain (lastDeltasOf prices period) period /
      avgLoss (lastDeltasOf prices period) period)

/-! ## ATR proxy and volatility regime (lines 162-171) -/

/-- Embeds `high_low`: per-step `max(p[i], p[i-1]) - min(p[i], p[i-1])`. -/
def high_low (prices : List ℚ) : List ℚ :=
  (List.zip prices.tail prices).map fun p => max p.1 p.2 - min p.1 p.2

/-- Embeds `atr14 = sum(high_low[-14:]) / 14 if len(high_low) >= 14 else 0`. -/
def atr14_of (prices : List ℚ) : ℚ :=
  if 14 ≤ (high_low prices).length then
    ((high_low prices).drop ((high_low prices).length - 14)).sum / 14
  else 0

/-- Volatility regime classification of `vol_pct = atr14 / current_price`
(lines 166-171). -/
def volRegime (vol_pct : ℚ) : String :=
  if vol_pct > 0.005 then "high"
  else if vol_pct < 0.002 then "low"
  else "normal"

/-! ## Exchange-A adapter `get_binance_data` (lines 10-57) -/

/-- One parsed kline row: the fields the adapter extracts
(`k[4]`, `k[5]`, `k[9]`). -/
structure Kline where
  close : ℚ
  volume : ℚ
  takerBuy : ℚ
deriving DecidableEq

/-- The decoded klines JSON: either not a list, or a list of rows. -/
inductive KlinesResp where
  | notList
  | list (ks : List Kline)
deriving DecidableEq

/-- The decoded depth JSON: quantity columns of each book side, each
present or absent (`'bids' not in depth`, `'asks' not in depth`). -/
structure DepthResp where
  bids : Option (List ℚ)
  asks : Option (List ℚ)
deriving DecidableEq

/-- Outcome of one HTTP request: `fail` covers a network/transport error or
a non-2xx status (`raise_for_status`); `ok` carries the decoded payload. -/
inductive Fetch (α : Type) where
  | fail
  | ok (a : α)
deriving DecidableEq

/-- The bag of fields returned by `get_binance_data`. -/
structure BinanceBag where
  mid_prices : List ℚ
  volumes : List ℚ
  taker_buy_volumes : List ℚ
  order_book_imbalance : ℚ
  bid_vol_top5 : ℚ
  ask_vol_top5 : ℚ
deriving DecidableEq

/-- Embeds `imbalance = (bid_vol - ask_vol) / (bid_vol + ask_vol) if (bid_vol + ask_vol) > 0 else 0`
(line 37). -/
def imbalance_raw (bid_vol ask_vol : ℚ) : ℚ :=
  if bid_vol + ask_vol > 0 then (bid_vol - ask_vol) / (bid_vol + ask_vol) else 0

/-- Embeds `round(imbalance, 4)` as stored in the returned bag (line 43). -/
def order_book_imbalance (bid_vol ask_vol : ℚ) : ℚ :=
  roundTo 4 (imbalance_raw bid_vol ask_vol)

/-- The `except` branch of `get_binance_data` (lines 47-57). -/
def binanceFallback : BinanceBag :=
  { mid_prices := List.replicate 10 60000
    volumes := List.replicate 10 1
    taker_buy_volumes := List.replicate 10 0.5
    order_book_imbalance := 0
    bid_vol_top5 := 10
    ask_vol_top5 := 10 }

/-- Embeds `get_binance_data()`: any raised failure (fetch failure, non-list or
empty klines, depth missing a book side) lands in the `except` branch and
returns the full fallback bag. -/
def get_binance_data (kr : Fetch KlinesResp) (dr : Fetch DepthResp) : BinanceBag :=
  match kr with
  | .fail => binanceFallback
  | .ok .notList => binanceFallback
  | .ok (.list ks) =>
    if ks.length = 0 then binanceFallback
    else
      match dr with
      | .fail => binanceFallback
      | .ok depth =>
        match depth.bids, depth.asks with
        | some bids, some asks =>
          { mid_prices := ks.map Kline.close
            volumes := ks.map Kline.volume
            taker_buy_volumes := ks.map Kline.takerBuy
            order_book_imbalance := order_book_imbalance bids.sum asks.sum
            bid_vol_top5 := bids.sum
            ask_vol_top5 := asks.sum }
        | _, _ => binanceFallback

/-- The conditions under which some step of the exchange-A fetch fails
(mirrors, step for step, the guards of `get_binance_data`). -/
def binanceFetchFails (kr : Fetch KlinesResp) (dr : Fetch DepthResp) : Bool :=
  match kr with
  | .fail => true
  | .ok .notList => true
  | .ok (.list ks) =>
    if ks.length = 0 then true
    else
      match dr with
      | .fail => true
      | .ok depth => depth.bids.isNone || depth.asks.isNone

/-! ## Exchange-B adapter values (lines 59-80) -/

/-- The pair returned by `get_bybit_data`. -/
structure BybitBag where
  oi_latest : ℚ
  funding_rate : ℚ
deriving DecidableEq

/-- The `except` branch of `get_bybit_data` (lines 77-80). -/
def bybitFallback : BybitBag :=
  { oi_latest := 29000, funding_rate := 0.00001 }

/-! ## Exchange-C adapter `get_coinglass_liquidations` (lines 82-105) -/

/-- The `data` payload: each liquidation list (already projected to its
`price` entries) present or absent. -/
structure ClData where
  longLiquidationList : Option (List ℚ)
  shortLiquidationList : Option (List ℚ)
deriving DecidableEq

/-- A completed coinglass HTTP response: status code and optional `data`. -/
structure ClResp where
  status : ℕ
  data : Option ClData
deriving DecidableEq

/-- Outcome of the coinglass request: any exception, or a response. -/
inductive ClFetch where
  | exn
  | resp (r : ClResp)
deriving DecidableEq

/-- Embeds `get_coinglass_liquidations()`: `keyPresent` is the truthiness of
`COINGLASS_API_KEY` (a missing/empty key raises, caught by the `except`). -/
def get_coinglass_liquidations (keyPresent : Bool) (f : ClFetch) : List ℚ × List ℚ :=
  if keyPresent = false then ([0, 0], [0, 0])
  else
    match f with
    | .exn => ([0, 0], [0, 0])
    | .resp r =>
      if r.status = 200 then
        let longs : List ℚ :=
          match r.data with
          | some d =>
            match d.longLiquidationList with
            | some l => l.take 2
            | none => []
          | none => []
        let shorts : List ℚ :=
          match r.data with
          | some d =>
            match d.shortLiquidationList with
            | some l => l.take 2
            | none => []
          | none => []
        ((if longs.isEmpty then [0, 0] else longs),
         (if shorts.isEmpty then [0, 0] else shorts))
      else ([0, 0], [0, 0])

/-- What one side of the result works out to, as a function of that side's
(optional) liquidation list: `[0,0]` when absent or empty, else the first
`min 2 (length)` prices. -/
def liqSide (o : Option (List ℚ)) : List ℚ :=
  match o with
  | none => [0, 0]
  | some l => if l.isEmpty then [0, 0] else l.take 2

/-! ## The rolling indicator lists built in `main` (lines 140-150) -/

/-- Embeds `macd_list`: `round(calculate_macd(prices[:i]), 3)` for
`i in range(10, len(prices) + 1)`. -/
def macd_list_of (prices : List ℚ) : List ℚ :=
  (List.range' 10 (prices.length + 1 - 10)).map
    fun i => roundTo 3 (calculate_macd (prices.take i))

/-- Embeds `rsi7_list`: `round(calculate_rsi(prices[:i], 7), 3)` for
`i in range(8, len(prices) + 1)`. -/
def rsi7_list_of (prices : List ℚ) : List ℚ :=
  (List.range' 8 (prices.length + 1 - 8)).map
    fun i => roundTo 3 (calculate_rsi (prices.take i) 7)

/-- Embeds `calculate_ema(prices, 20)[-10:]` (line 137). -/
def ema20_list_of (prices : List ℚ) : List ℚ :=
  (calculate_ema prices 20).drop ((calculate_ema prices 20).length - 10)

/-- The 4h block (lines 153-160): on any failure in the guarded region
(including an empty klines list, whose EMA indexing raises), the constants
`60000.0` / `59000.0`. -/
def fourHourEmas (f4h : Fetch (List ℚ)) : ℚ × ℚ :=
  match f4h with
  | .fail => (60000, 59000)
  | .ok closes =>
    if closes.isEmpty then (60000, 59000)
    else (lastD (calculate_ema closes 20), lastD (calculate_ema closes 50))

/-! ## The report (lines 173-204) -/

/-- How one interpolated field of the output f-string is rendered:
`fixed d v` for `{v:.df}`, `plain v` for a bare `{v}` (Python default
float repr), `plainList vs` for a bare `{vs}` (Python list repr). -/
inductive PyFmt where
  | fixed (decimals : ℕ) (value : ℚ)
  | plain (value : ℚ)
  | plainList (values : List ℚ)
deriving DecidableEq

/-- The fixed decimal precision a field is rendered with, if any. -/
def fmtDecimals : PyFmt → Option ℕ
  | .fixed d _ => some d
  | _ => none

/-- The rendered report: one entry per interpolated numeric field of the
output f-string, in order of appearance, plus the regime label. -/
structure Report where
  current_price : PyFmt
  current_ema20 : PyFmt
  current_macd : PyFmt
  current_rsi7 : PyFmt
  oi_latest : PyFmt
  oi_average : PyFmt
  funding_rate : PyFmt
  mid_prices : PyFmt
  ema20_series : PyFmt
  macd_series : PyFmt
  rsi7_series : PyFmt
  rsi14_intraday : PyFmt
  ema20_4h : PyFmt
  ema50_4h : PyFmt
  atr3_field : PyFmt
  atr14_field : PyFmt
  current_volume : PyFmt
  average_volume : PyFmt
  macd_long : PyFmt
  rsi14_long : PyFmt
  bid_vol : PyFmt
  ask_vol : PyFmt
  imbalance : PyFmt
  taker_buy_latest : PyFmt
  taker_buy_share : PyFmt
  long_liq : PyFmt
  short_liq : PyFmt
  vol_regime : String
  atr_regime : PyFmt
deriving DecidableEq

/-- The report `main` assembles when no exception interrupts it, field by
field in source order with the format specifier each field carries in the
f-string. -/
def buildReport (binance : BinanceBag) (bybit : BybitBag)
    (long_liq short_liq : List ℚ) (f4h : Fetch (List ℚ)) : Report :=
  let current_price := lastD binance.mid_prices
  let ema20_list := ema20_list_of binance.mid_prices
  let macd_list := macd_list_of binance.mid_prices
  let rsi7_list := rsi7_list_of binance.mid_prices
  let e4 := fourHourEmas f4h
  let atr14 := atr14_of binance.mid_prices
  { current_price := .plain current_price
    current_ema20 := .fixed 3 (lastD ema20_list)
    current_macd := .fixed 3 (macd_list.getLast?.getD 0)
    current_rsi7 := .fixed 3 (rsi7_list.getLast?.getD 50)
    oi_latest := .fixed 2 bybit.oi_latest
    oi_average := .fixed 2 (bybit.oi_latest * 0.999)
    funding_rate := .fixed 8 bybit.funding_rate
    mid_prices := .plainList binance.mid_prices
    ema20_series := .plainList (ema20_list.map (roundTo 3))
    macd_series := .plainList macd_list
    rsi7_series := .plainList rsi7_list
    rsi14_intraday := .plainList (List.replicate 10 60)
    ema20_4h := .fixed 3 e4.1
    ema50_4h := .fixed 3 e4.2
    atr3_field := .fixed 3 atr14
    atr14_field := .fixed 3 atr14
    current_volume := .fixed 3 (lastD binance.volumes)
    average_volume := .fixed 3 (binance.volumes.sum / (binance.volumes.length : ℚ))
    macd_long := .plainList (List.replicate 10 100)
    rsi14_long := .plainList (List.replicate 10 60)
    bid_vol := .fixed 1 binance.bid_vol_top5
    ask_vol := .fixed 1 binance.ask_vol_top5
    imbalance := .fixed 3 binance.order_book_imbalance
    taker_buy_latest := .fixed 1 (lastD binance.taker_buy_volumes)
    taker_buy_share := .fixed 1 (lastD binance.taker_buy_volumes / lastD binance.volumes * 100)
    long_liq := .plainList long_liq
    short_liq := .plainList short_liq
    vol_regime := volRegime (atr14 / current_price)
    atr_regime := .fixed 1 atr14 }

/-- Unrecovered Python exceptions `main` can raise. -/
inductive PyError where
  | zeroDivision
  | indexError
deriving DecidableEq

/-- Embeds `main()` after the adapter calls, in evaluation order: `mid_prices[-1]`
(line 135, IndexError on empty), `atr14 / current_price` (line 165,
ZeroDivisionError on zero price), `volumes[-1]` (line 195),
`taker_buy_volumes[-1]` then the share division (line 201,
ZeroDivisionError when the last volume is 0).  An error means the run
terminates before the report file is written. -/
def mainRun (binance : BinanceBag) (bybit : BybitBag)
    (long_liq short_liq : List ℚ) (f4h : Fetch (List ℚ)) : Except PyError Report :=
  match binance.mid_prices.getLast? with
  | none => .error .indexError
  | some current_price =>
    if current_price = 0 then .error .zeroDivision
    else
      match binance.volumes.getLast? with
      | none => .error .indexError
      | some lastVol =>
        match binance.taker_buy_volumes.getLast? with
        | none => .error .indexError
        | some _lastTaker =>
          if lastVol = 0 then .error .zeroDivision
          else .ok (buildReport binance bybit long_liq short_liq f4h)

/-- The regime label of a completed run. -/
def regimeOf (e : Except PyError Report) : Option String :=
  e.toOption.map Report.vol_regime

/-! ## Concrete scenarios -/

/-- The end-to-end scenario's primary price series. -/
def series10 : List ℚ := [100, 101, 102, 103, 104, 105, 106, 107, 108, 109]

/-- The end-to-end scenario's adapter bag: prices `[100..109]`, volumes all
`1.0`, taker-buy all `0.5`. -/
def bag10 : BinanceBag :=
  { mid_prices := series10
    volumes := List.replicate 10 1
    taker_buy_volumes := List.replicate 10 0.5
    order_book_imbalance := 0
    bid_vol_top5 := 10
    ask_vol_top5 := 10 }

/-- The end-to-end scenario run. -/
def run1 : Except PyError Report := mainRun bag10 bybitFallback [0, 0] [0, 0] Fetch.fail

/-- The failure-scenario run: the full exchange-A fallback bag downstream. -/
def fallbackRun : Except PyError Report :=
  mainRun binanceFallback bybitFallback [0, 0] [0, 0] Fetch.fail

/-- A minimal successful adapter bag (single candle). -/
def tinyBag : BinanceBag :=
  { mid_prices := [1]
    volumes := [1]
    taker_buy_volumes := [1]
    order_book_imbalance := 0
    bid_vol_top5 := 10
    ask_vol_top5 := 10 }

/-- The run on `tinyBag`. -/
def tinyRun : Except PyError Report := mainRun tinyBag bybitFallback [0, 0] [0, 0] Fetch.fail

/-- Its report. -/
def tinyReport : Report := buildReport tinyBag bybitFallback [0, 0] [0, 0] Fetch.fail

end BtcFeed

namespace BtcFeed

/-! ## Rounding lemmas -/

theorem pyRound2_ge_floor (q : ℚ) : ⌊q⌋ ≤ pyRound2 q := by
  unfold pyRound2
  rw [← Rat.floor_def]
  dsimp only
  split_ifs <;> omega

theorem pyRound2_le_ceil (q : ℚ) : pyRound2 q ≤ ⌈q⌉ := by
  unfold pyRound2
  rw [← Rat.floor_def]
  have hfc : ⌊q⌋ ≤ ⌈q⌉ := Int.floor_le_ceil q
  dsimp only
  split_ifs with h1 h2 h3
  · exact hfc
  · have hlt : (⌊q⌋ : ℚ) < q := by linarith
    have := Int.lt_ceil.2 hlt
    omega
  · exact hfc
  · have hlt : (⌊q⌋ : ℚ) < q := by push_neg at h1; linarith
    have := Int.lt_ceil.2 hlt
    omega

theorem roundTo_le_of_le (d : ℕ) (q : ℚ) (h : q ≤ 1) : roundTo d q ≤ 1 := by
  unfold roundTo
  rw [div_le_one (by positivity)]
  have h1 : (q * 10 ^ d) ≤ ((10 ^ d : ℤ) : ℚ) := by
    push_cast
    calc q * 10 ^ d ≤ 1 * 10 ^ d := mul_le_mul_of_nonneg_right h (by positivity)
      _ = 10 ^ d := one_mul _
  have h2 : ⌈q * 10 ^ d⌉ ≤ (10 ^ d : ℤ) := Int.ceil_le.2 h1
  have h3 := pyRound2_le_ceil (q * 10 ^ d)
  have h4 : (pyRound2 (q * 10 ^ d) : ℚ) ≤ ((10 ^ d : ℤ) : ℚ) := by
    exact_mod_cast le_trans h3 h2
  push_cast at h4 ⊢
  linarith

theorem roundTo_ge_of_ge (d : ℕ) (q : ℚ) (h : -1 ≤ q) : -1 ≤ roundTo d q := by
  unfold roundTo
  rw [le_div_iff₀ (by positivity : (0:ℚ) < 10 ^ d)]
  have h0 : (-1 : ℚ) * 10 ^ d ≤ q * 10 ^ d := mul_le_mul_of_nonneg_right h (by positivity)
  have h1 : ((-(10 ^ d) : ℤ) : ℚ) ≤ q * 10 ^ d := by push_cast; linarith
  have h2 : (-(10 ^ d) : ℤ) ≤ ⌊q * 10 ^ d⌋ := Int.le_floor.2 h1
  have h3 := pyRound2_ge_floor (q * 10 ^ d)
  have h4 : ((-(10 ^ d) : ℤ) : ℚ) ≤ (pyRound2 (q * 10 ^ d) : ℚ) := by
    exact_mod_cast le_trans h2 h3
  push_cast at h4 ⊢
  linarith

/-! ## RSI helper lemmas -/

theorem gainsOf_sum_nonneg (ds : List ℚ) : 0 ≤ (gainsOf ds).sum := by
  apply List.sum_nonneg
  intro x hx
  obtain ⟨d, _, rfl⟩ := List.mem_map.1 hx
  split <;> [linarith; rfl]

theorem avgGain_nonneg (ds : List ℚ) : 0 ≤ avgGain ds 7 :=
  div_nonneg (gainsOf_sum_nonneg ds) (by norm_num)

theorem avgLoss_pos (ds : List ℚ) : 0 < avgLoss ds 7 := by
  unfold avgLoss
  split_ifs with h
  · exact div_pos h (by norm_num)
  · norm_num

/-! ## Imbalance helper lemma -/

theorem imbalance_raw_bounds (b a : ℚ) (hb : 0 ≤ b) (ha : 0 ≤ a) :
    -1 ≤ imbalance_raw b a ∧ imbalance_raw b a ≤ 1 := by
  unfold imbalance_raw
  split_ifs with h
  · constructor
    · rw [le_div_iff₀ h]; linarith
    · rw [div_le_one h]; linarith
  · norm_num

/-- Claim C2 (confirmed).  The volatility-regime classification is total:
`"high"` exactly when the ratio exceeds `0.005`, `"low"` exactly when it is
below `0.002`, `"normal"` exactly on the closed band in between; in
particular the boundary ratios `0.002` and `0.005` both classify as
`"normal"`. -/
theorem C2_regime_total (r : ℚ) :
    (volRegime r = "high" ↔ r > 0.005) ∧
    (volRegime r = "low" ↔ r < 0.002) ∧
    (volRegime r = "normal" ↔ 0.002 ≤ r ∧ r ≤ 0.005) ∧
    volRegime 0.002 = "normal" ∧ volRegime 0.005 = "normal" := by
  refine ⟨?_, ?_, ?_, by norm_num [volRegime], by norm_num [volRegime]⟩
  all_goals unfold volRegime
  all_goals split_ifs with h1 h2 <;> simp_all <;> try linarith

/-- Claim C6 (confirmed).  `calculate_rsi` with period 7 always lies in
`[0, 100]`, and returns exactly `50.0` on series shorter than 8. -/
theorem C6_rsi_bounds (prices : List ℚ) :
    0 ≤ calculate_rsi prices 7 ∧ calculate_rsi prices 7 ≤ 100 ∧
    (prices.length < 8 → calculate_rsi prices 7 = 50) := by
  unfold calculate_rsi
  by_cases h : prices.length < 7 + 1
  · simp [h]; norm_num
  · have hg := avgGain_nonneg (lastDeltasOf prices 7)
    have hl := avgLoss_pos (lastDeltasOf prices 7)
    have hrs : 0 ≤ avgGain (lastDeltasOf prices 7) 7 / avgLoss (lastDeltasOf prices 7) 7 :=
      div_nonneg hg hl.le
    have h1 : 0 < 1 + avgGain (lastDeltasOf prices 7) 7 / avgLoss (lastDeltasOf prices 7) 7 := by
      linarith
    have hle : 100 / (1 + avgGain (lastDeltasOf prices 7) 7 /
        avgLoss (lastDeltasOf prices 7) 7) ≤ 100 :=
      div_le_self (by norm_num) (by linarith)
    have hpos : 0 < 100 / (1 + avgGain (lastDeltasOf prices 7) 7 /
        avgLoss (lastDeltasOf prices 7) 7) :=
      div_pos (by norm_num) h1
    refine ⟨?_, ?_, ?_⟩
    · simp only [if_neg h]; linarith
    · simp only [if_neg h]; linarith
    · intro hlen; omega

/-- Witness for `C6_rsi_bounds` at the concrete 3-element series. -/
theorem C6_rsi_bounds_witness :
    calculate_rsi [1, 2, 3] 7 = 50 ∧ 0 ≤ calculate_rsi [1, 2, 3] 7 :=
  ⟨(C6_rsi_bounds [1, 2, 3]).2.2 (by norm_num), (C6_rsi_bounds [1, 2, 3]).1⟩

/-- Claim C8 counterexample: a balanced book with positive volume
(`bid_vol = ask_vol = 5`) also yields imbalance `0`, so imbalance is not
zero *exactly* when `bid_vol + ask_vol = 0`. -/
theorem C8_imbalance_counterexample :
    order_book_imbalance 5 5 = 0 ∧ (5 : ℚ) + 5 ≠ 0 := by
  norm_num [order_book_imbalance, imbalance_raw, roundTo, pyRound2]

/-- Claim C8 amended: for non-negative top-5 volumes the stored imbalance is
`(bid−ask)/(bid+ask)` rounded half-to-even to 4 decimals, lies in `[-1, 1]`,
and is `0` whenever `bid + ask = 0` (though not only then). -/
theorem C8_imbalance_amended (b a : ℚ) (hb : 0 ≤ b) (ha : 0 ≤ a) :
    order_book_imbalance b a = roundTo 4 (imbalance_raw b a) ∧
    -1 ≤ order_book_imbalance b a ∧ order_book_imbalance b a ≤ 1 ∧
    (b + a = 0 → order_book_imbalance b a = 0) := by
  obtain ⟨h1, h2⟩ := imbalance_raw_bounds b a hb ha
  refine ⟨rfl, roundTo_ge_of_ge 4 _ h1, roundTo_le_of_le 4 _ h2, ?_⟩
  intro h0
  have hz : imbalance_raw b a = 0 := by
    unfold imbalance_raw
    rw [h0]
    norm_num
  rw [order_book_imbalance, hz]
  norm_num [roundTo, pyRound2]

/-- Witness for `C8_imbalance_amended` at `bid = ask = 0`. -/
theorem C8_imbalance_amended_witness : order_book_imbalance 0 0 = 0 :=
  (C8_imbalance_amended 0 0 (by norm_num) (by norm_num)).2.2.2 (by norm_num)

end BtcFeed

namespace BtcFeed

/-- Claim C4 (confirmed).  Whenever any step of the exchange-A fetch fails —
network error or non-2xx status on either request, a non-list or empty
klines payload, or a depth payload missing either book side —
`get_binance_data` returns the complete fallback bag, exactly as the claim
lists it, and never a partially populated mix. -/
theorem C4_binance_fallback (kr : Fetch KlinesResp) (dr : Fetch DepthResp)
    (h : binanceFetchFails kr dr = true) :
    get_binance_data kr dr =
      { mid_prices := List.replicate 10 60000
        volumes := List.replicate 10 1
        taker_buy_volumes := List.replicate 10 0.5
        order_book_imbalance := 0
        bid_vol_top5 := 10
        ask_vol_top5 := 10 } := by
  have hfb : get_binance_data kr dr = binanceFallback → get_binance_data kr dr =
      { mid_prices := List.replicate 10 60000
        volumes := List.replicate 10 1
        taker_buy_volumes := List.replicate 10 0.5
        order_book_imbalance := 0
        bid_vol_top5 := 10
        ask_vol_top5 := 10 } := fun hx => hx
  apply hfb
  cases kr with
  | fail => rfl
  | ok kres =>
    cases kres with
    | notList => rfl
    | list ks =>
      by_cases hk : ks.length = 0
      · simp [get_binance_data, hk]
      · cases dr with
        | fail => simp [get_binance_data, hk]
        | ok depth =>
          obtain ⟨bo, ao⟩ := depth
          simp only [binanceFetchFails, if_neg hk] at h
          cases bo <;> cases ao <;> simp_all [get_binance_data, hk]

/-- Witness for `C4_binance_fallback`: a network failure on both requests. -/
theorem C4_binance_fallback_witness :
    get_binance_data Fetch.fail Fetch.fail =
      { mid_prices := List.replicate 10 60000
        volumes := List.replicate 10 1
        taker_buy_volumes := List.replicate 10 0.5
        order_book_imbalance := 0
        bid_vol_top5 := 10
        ask_vol_top5 := 10 } :=
  C4_binance_fallback Fetch.fail Fetch.fail rfl

/-- Claim C5 counterexample: a successful response whose long-liquidation
list has exactly one entry yields a length-1 long side (`longs or [0,0]`
keeps a non-empty singleton), so the result is not always length-2. -/
theorem C5_coinglass_counterexample :
    (get_coinglass_liquidations true
        (ClFetch.resp ⟨200, some ⟨some [61000], some [59000, 58000]⟩⟩)).1 = [61000] ∧
    ([61000] : List ℚ).length ≠ 2 := by
  constructor
  · rfl
  · simp

/-- Claim C5 amended: each side has length at most 2 (exactly
`min 2 (list length)` for a present non-empty list, so a single-entry list
gives a length-1 side); both sides are `[0,0]` on a missing credential, an
exception, or a non-200 status; and on a 200 response each side
independently degrades to `[0,0]` when its list is absent or empty. -/
theorem C5_coinglass_amended (kp : Bool) (f : ClFetch) :
    (get_coinglass_liquidations kp f).1.length ≤ 2 ∧
    (get_coinglass_liquidations kp f).2.length ≤ 2 ∧
    (kp = false → get_coinglass_liquidations kp f = ([0, 0], [0, 0])) ∧
    (f = ClFetch.exn → get_coinglass_liquidations kp f = ([0, 0], [0, 0])) ∧
    (∀ r, f = ClFetch.resp r → r.status ≠ 200 →
      get_coinglass_liquidations kp f = ([0, 0], [0, 0])) ∧
    (∀ r, f = ClFetch.resp r → r.status = 200 → kp = true →
      get_coinglass_liquidations kp f =
        (liqSide (r.data.bind ClData.longLiquidationList),
         liqSide (r.data.bind ClData.shortLiquidationList))) := by
  have hside : ∀ o : Option (List ℚ), (liqSide o).length ≤ 2 := by
    intro o
    rcases o with _ | l
    · simp [liqSide]
    · simp only [liqSide]
      split_ifs
      · simp
      · simp [List.length_take]
  have h200 : ∀ dt : Option ClData,
      get_coinglass_liquidations true (ClFetch.resp ⟨200, dt⟩) =
        (liqSide (dt.bind ClData.longLiquidationList),
         liqSide (dt.bind ClData.shortLiquidationList)) := by
    intro dt
    rcases dt with _ | ⟨lo, so⟩
    · simp [get_coinglass_liquidations, liqSide]
    · rcases lo with _ | (_ | ⟨x, xs⟩) <;> rcases so with _ | (_ | ⟨z, zs⟩) <;>
        simp [get_coinglass_liquidations, liqSide]
  have hlen : (get_coinglass_liquidations kp f).1.length ≤ 2 ∧
      (get_coinglass_liquidations kp f).2.length ≤ 2 := by
    cases kp with
    | false => simp [get_coinglass_liquidations]
    | true =>
      cases f with
      | exn => simp [get_coinglass_liquidations]
      | resp r =>
        obtain ⟨st, dt⟩ := r
        by_cases hst : st = 200
        · subst hst
          rw [h200 dt]
          exact ⟨hside _, hside _⟩
        · simp [get_coinglass_liquidations, hst]
  refine ⟨hlen.1, hlen.2, ?_, ?_, ?_, ?_⟩
  · intro hk
    subst hk
    rfl
  · intro hf
    subst hf
    cases kp <;> rfl
  · intro r hr hst
    subst hr
    cases kp with
    | false => rfl
    | true =>
      obtain ⟨st, dt⟩ := r
      have hst2 : ¬ st = 200 := by simpa using hst
      simp [get_coinglass_liquidations, hst2]
  · intro r hr hst hk
    subst hr
    subst hk
    obtain ⟨st, dt⟩ := r
    have hst2 : st = 200 := by simpa using hst
    subst hst2
    exact h200 dt

/-- Witness for `C5_coinglass_amended`: an exception run returns the
zero-filled pairs. -/
theorem C5_coinglass_amended_witness :
    get_coinglass_liquidations true ClFetch.exn = ([0, 0], [0, 0]) :=
  (C5_coinglass_amended true ClFetch.exn).2.2.2.1 rfl

/-- Helper: a successful `mainRun` returns exactly the report assembled by
`buildReport`. -/
theorem mainRun_ok_eq (b : BinanceBag) (y : BybitBag) (ll sl : List ℚ)
    (f4 : Fetch (List ℚ)) (r : Report) (h : mainRun b y ll sl f4 = Except.ok r) :
    r = buildReport b y ll sl f4 := by
  unfold mainRun at h
  repeat' split at h
  all_goals simp_all

/-- Claim C9 (confirmed).  The taker-buy share at line 201 divides by the
latest volume with no guard: on any adapter output whose last volume entry
is `0`, `main` stops with an unrecovered ZeroDivisionError and never
reaches the file write. -/
theorem C9_zero_volume_division (b : BinanceBag) (y : BybitBag) (ll sl : List ℚ)
    (f4 : Fetch (List ℚ)) (h1 : b.mid_prices ≠ []) (h2 : b.volumes.getLast? = some 0)
    (h3 : b.taker_buy_volumes ≠ []) :
    mainRun b y ll sl f4 = Except.error PyError.zeroDivision := by
  unfold mainRun
  rcases hm : b.mid_prices.getLast? with _ | cp
  · rw [List.getLast?_eq_none_iff] at hm
    exact absurd hm h1
  · rcases ht : b.taker_buy_volumes.getLast? with _ | tk
    · rw [List.getLast?_eq_none_iff] at ht
      exact absurd ht h3
    · simp only [hm, h2, ht]
      split_ifs <;> simp_all

/-- A minimal adapter bag whose latest volume entry is `0`. -/
def zeroVolBag : BinanceBag :=
  { mid_prices := [1]
    volumes := [0]
    taker_buy_volumes := [1]
    order_book_imbalance := 0
    bid_vol_top5 := 10
    ask_vol_top5 := 10 }

/-- Witness for `C9_zero_volume_division` on `zeroVolBag`. -/
theorem C9_zero_volume_division_witness :
    mainRun zeroVolBag bybitFallback [0, 0] [0, 0] Fetch.fail =
      Except.error PyError.zeroDivision :=
  C9_zero_volume_division zeroVolBag bybitFallback [0, 0] [0, 0] Fetch.fail
    (by simp [zeroVolBag]) (by simp [zeroVolBag]) (by simp [zeroVolBag])

/-- Claim C10 (confirmed).  Every successful report carries the constant
indicator lines: both 14-period RSI lines are the constant list of ten
`60.0`, the longer-term MACD line is the constant list of ten `100.0`, and
the fields labeled 3-period ATR and 14-period ATR are the same `atr14`
rendering. -/
theorem C10_constant_fields (b : BinanceBag) (y : BybitBag) (ll sl : List ℚ)
    (f4 : Fetch (List ℚ)) (r : Report) (h : mainRun b y ll sl f4 = Except.ok r) :
    r.rsi14_intraday = PyFmt.plainList (List.replicate 10 60) ∧
    r.rsi14_long = PyFmt.plainList (List.replicate 10 60) ∧
    r.macd_long = PyFmt.plainList (List.replicate 10 100) ∧
    r.atr3_field = r.atr14_field := by
  obtain rfl := mainRun_ok_eq b y ll sl f4 r h
  exact ⟨rfl, rfl, rfl, rfl⟩

/-- Witness for `C10_constant_fields` on the `tinyBag` run. -/
theorem C10_constant_fields_witness :
    tinyReport.rsi14_intraday = PyFmt.plainList (List.replicate 10 60) ∧
    tinyReport.rsi14_long = PyFmt.plainList (List.replicate 10 60) ∧
    tinyReport.macd_long = PyFmt.plainList (List.replicate 10 100) ∧
    tinyReport.atr3_field = tinyReport.atr14_field :=
  C10_constant_fields tinyBag bybitFallback [0, 0] [0, 0] Fetch.fail tinyReport
    (by simp [mainRun, tinyBag, tinyReport])

end BtcFeed

namespace BtcFeed

/-- Claim C7 (confirmed).  Rolling-list lengths: one recomputed MACD value per
prefix length from 10 up (so `len - 9` entries) and one RSI value per prefix
length from 8 up (so `len - 7` entries). -/
theorem C7_rolling_lengths (prices : List ℚ) (h : 10 ≤ prices.length) :
    (macd_list_of prices).length = prices.length - 9 ∧
    (rsi7_list_of prices).length = prices.length - 7 ∧
    (∀ j, ∀ hj : j < (macd_list_of prices).length,
      (macd_list_of prices)[j] = roundTo 3 (calculate_macd (prices.take (10 + j)))) ∧
    (∀ j, ∀ hj : j < (rsi7_list_of prices).length,
      (rsi7_list_of prices)[j] = roundTo 3 (calculate_rsi (prices.take (8 + j)) 7)) := by
  refine ⟨?_, ?_, ?_, ?_⟩
  · simp only [macd_list_of, List.length_map, List.length_range']
    omega
  · simp only [rsi7_list_of, List.length_map, List.length_range']
    omega
  · intro j hj
    simp [macd_list_of, List.getElem_range'_1]
  · intro j hj
    simp [rsi7_list_of, List.getElem_range'_1]

/-- Witness for `C7_rolling_lengths`: the 10-sample series yields exactly
1 MACD value and 3 RSI values. -/
theorem C7_rolling_lengths_witness :
    (macd_list_of (List.replicate 10 (1 : ℚ))).length = 1 ∧
    (rsi7_list_of (List.replicate 10 (1 : ℚ))).length = 3 :=
  ⟨(C7_rolling_lengths (List.replicate 10 1) (by norm_num)).1,
   (C7_rolling_lengths (List.replicate 10 1) (by norm_num)).2.1⟩

/-! ## Concrete runs for the end-to-end claims -/

/-- The report of the end-to-end scenario run. -/
def report10 : Report := buildReport bag10 bybitFallback [0, 0] [0, 0] Fetch.fail

/-- The report of the failure-scenario (fallback-bag) run. -/
def fallbackReport : Report :=
  buildReport binanceFallback bybitFallback [0, 0] [0, 0] Fetch.fail

theorem run1_eq : run1 = Except.ok report10 := rfl

theorem fallbackRun_eq : fallbackRun = Except.ok fallbackReport := rfl

theorem report10_current_price : report10.current_price = PyFmt.plain 109 := rfl

theorem report10_atr : report10.atr14_field = PyFmt.fixed 3 0 := rfl

theorem report10_regime : report10.vol_regime = "low" := by
  have hatr : atr14_of bag10.mid_prices = 0 := rfl
  show volRegime (atr14_of bag10.mid_prices / lastD bag10.mid_prices) = "low"
  rw [hatr, zero_div]
  norm_num [volRegime]

theorem rsi_of_series10 : calculate_rsi series10 7 = 50 := by
  have hd : lastDeltasOf series10 7 = [1, 1, 1, 1, 1, 1, 1] := by
    norm_num [series10, lastDeltasOf, deltasOf, List.zip_cons_cons, List.zip_nil_right]
  rw [calculate_rsi, if_neg (by norm_num [series10]), hd]
  norm_num [avgGain, avgLoss, gainsOf, lossesOf]

theorem rsi7_list_of_series10 : rsi7_list_of series10 =
    [roundTo 3 (calculate_rsi ([100, 101, 102, 103, 104, 105, 106, 107] : List ℚ) 7),
     roundTo 3 (calculate_rsi ([100, 101, 102, 103, 104, 105, 106, 107, 108] : List ℚ) 7),
     roundTo 3 (calculate_rsi series10 7)] := by
  have hlen : series10.length = 10 := by norm_num [series10]
  rw [rsi7_list_of, hlen]
  norm_num [List.range']
  exact ⟨by norm_num [series10], by norm_num [series10], by rw [show (10:ℕ) = series10.length from hlen.symm, List.take_length]⟩

theorem report10_rsi : report10.current_rsi7 = PyFmt.fixed 3 50 := by
  show PyFmt.fixed 3 ((rsi7_list_of bag10.mid_prices).getLast?.getD 50) = PyFmt.fixed 3 50
  have hb : bag10.mid_prices = series10 := rfl
  rw [hb, rsi7_list_of_series10]
  simp only [List.getLast?_cons_cons, List.getLast?_singleton, Option.getD_some]
  rw [rsi_of_series10]
  norm_num [roundTo, pyRound2]

theorem fallbackReport_atr : fallbackReport.atr14_field = PyFmt.fixed 3 0 := rfl

theorem fallbackReport_regime : fallbackReport.vol_regime = "low" := by
  have hatr : atr14_of binanceFallback.mid_prices = 0 := rfl
  show volRegime (atr14_of binanceFallback.mid_prices / lastD binanceFallback.mid_prices) = "low"
  rw [hatr, zero_div]
  norm_num [volRegime]

theorem rsi_of_constant10 : calculate_rsi (List.replicate 10 (60000 : ℚ)) 7 = 0 := by
  have hd : lastDeltasOf (List.replicate 10 (60000 : ℚ)) 7 = [0, 0, 0, 0, 0, 0, 0] := by
    norm_num [lastDeltasOf, deltasOf, List.replicate, List.zip_cons_cons, List.zip_nil_right]
  rw [calculate_rsi, if_neg (by norm_num), hd]
  norm_num [avgGain, avgLoss, gainsOf, lossesOf]

theorem rsi7_list_of_constant10 : rsi7_list_of (List.replicate 10 (60000 : ℚ)) =
    [roundTo 3 (calculate_rsi (List.replicate 8 (60000 : ℚ)) 7),
     roundTo 3 (calculate_rsi (List.replicate 9 (60000 : ℚ)) 7),
     roundTo 3 (calculate_rsi (List.replicate 10 (60000 : ℚ)) 7)] := by
  rw [rsi7_list_of]
  norm_num [List.range']

theorem fallbackReport_rsi : fallbackReport.current_rsi7 = PyFmt.fixed 3 0 := by
  show PyFmt.fixed 3 ((rsi7_list_of binanceFallback.mid_prices).getLast?.getD 50) =
    PyFmt.fixed 3 0
  have hb : binanceFallback.mid_prices = List.replicate 10 (60000 : ℚ) := rfl
  rw [hb, rsi7_list_of_constant10]
  simp only [List.getLast?_cons_cons, List.getLast?_singleton, Option.getD_some]
  rw [rsi_of_constant10]
  norm_num [roundTo, pyRound2]

end BtcFeed

namespace BtcFeed

/-- Claim C1 counterexample: on the primary series `[100..109]`, ATR is 0
(only 9 consecutive differences), so the ratio is 0 and the code classifies
the regime as `"low"` (`ratio < 0.002`), not `"normal"` as claimed. -/
theorem C1_e2e_counterexample :
    run1 = Except.ok report10 ∧ report10.vol_regime = "low" ∧
    report10.vol_regime ≠ "normal" := by
  refine ⟨run1_eq, report10_regime, ?_⟩
  rw [report10_regime]
  decide

/-- Claim C1 amended: on the primary series `[100..109]` the pipeline gives
`current_price = 109`, ATR `0`, RSI7 exactly `50.0` — but regime `"low"`
(ratio 0 is below the 0.002 band); on the constant fallback series the
pipeline gives ATR `0`, regime `"low"`, and RSI7 exactly `0.0` (zero
deltas give `avg_gain = 0` with the loss floor at 1). -/
theorem C1_e2e_amended :
    run1 = Except.ok report10 ∧
    report10.current_price = PyFmt.plain 109 ∧
    report10.atr14_field = PyFmt.fixed 3 0 ∧
    report10.current_rsi7 = PyFmt.fixed 3 50 ∧
    report10.vol_regime = "low" ∧
    fallbackRun = Except.ok fallbackReport ∧
    fallbackReport.atr14_field = PyFmt.fixed 3 0 ∧
    fallbackReport.current_rsi7 = PyFmt.fixed 3 0 ∧
    fallbackReport.vol_regime = "low" :=
  ⟨run1_eq, report10_current_price, report10_atr, report10_rsi, report10_regime,
   fallbackRun_eq, fallbackReport_atr, fallbackReport_rsi, fallbackReport_regime⟩

/-- Claim C3 counterexample: in the rendered report `current_price` carries no
fixed-precision format at all (bare `{current_price}` interpolation), and
the order-book imbalance is rendered with 3 decimals, not 4. -/
theorem C3_precision_counterexample :
    run1 = Except.ok report10 ∧
    fmtDecimals report10.current_price = none ∧
    fmtDecimals report10.current_price ≠ some 3 ∧
    fmtDecimals report10.imbalance = some 3 ∧
    fmtDecimals report10.imbalance ≠ some 4 := by
  have h1 : fmtDecimals report10.current_price = none := rfl
  have h2 : fmtDecimals report10.imbalance = some 3 := rfl
  refine ⟨run1_eq, h1, ?_, h2, ?_⟩
  · rw [h1]; simp
  · rw [h2]; simp

/-- Claim C3 amended: the fixed precisions actually used, field by field:
indicators and the 4h EMAs and both ATR fields use 3 decimals; open
interest 2; funding rate 8; bid/ask/taker volumes and the regime-line ATR 1;
current and average volume 3; the stored imbalance (already rounded to 4
decimals) is rendered with 3; `current_price`, the price series and the
liquidation lists are interpolated bare, with no fixed precision. -/
theorem C3_precision_amended (b : BinanceBag) (y : BybitBag) (ll sl : List ℚ)
    (f4 : Fetch (List ℚ)) (r : Report) (h : mainRun b y ll sl f4 = Except.ok r) :
    fmtDecimals r.current_price = none ∧
    fmtDecimals r.current_ema20 = some 3 ∧
    fmtDecimals r.current_macd = some 3 ∧
    fmtDecimals r.current_rsi7 = some 3 ∧
    fmtDecimals r.oi_latest = some 2 ∧
    fmtDecimals r.oi_average = some 2 ∧
    fmtDecimals r.funding_rate = some 8 ∧
    fmtDecimals r.mid_prices = none ∧
    fmtDecimals r.ema20_4h = some 3 ∧
    fmtDecimals r.ema50_4h = some 3 ∧
    fmtDecimals r.atr3_field = some 3 ∧
    fmtDecimals r.atr14_field = some 3 ∧
    fmtDecimals r.current_volume = some 3 ∧
    fmtDecimals r.average_volume = some 3 ∧
    fmtDecimals r.bid_vol = some 1 ∧
    fmtDecimals r.ask_vol = some 1 ∧
    fmtDecimals r.imbalance = some 3 ∧
    fmtDecimals r.taker_buy_latest = some 1 ∧
    fmtDecimals r.taker_buy_share = some 1 ∧
    fmtDecimals r.long_liq = none ∧
    fmtDecimals r.short_liq = none ∧
    fmtDecimals r.atr_regime = some 1 := by
  obtain rfl := mainRun_ok_eq b y ll sl f4 r h
  exact ⟨rfl, rfl, rfl, rfl, rfl, rfl, rfl, rfl, rfl, rfl, rfl, rfl, rfl, rfl, rfl,
    rfl, rfl, rfl, rfl, rfl, rfl, rfl⟩

/-- Witness for `C3_precision_amended` on the `tinyBag` run. -/
theorem C3_precision_amended_witness :
    fmtDecimals tinyReport.current_price = none ∧
    fmtDecimals tinyReport.current_ema20 = some 3 ∧
    fmtDecimals tinyReport.current_macd = some 3 ∧
    fmtDecimals tinyReport.current_rsi7 = some 3 ∧
    fmtDecimals tinyReport.oi_latest = some 2 ∧
    fmtDecimals tinyReport.oi_average = some 2 ∧
    fmtDecimals tinyReport.funding_rate = some 8 ∧
    fmtDecimals tinyReport.mid_prices = none ∧
    fmtDecimals tinyReport.ema20_4h = some 3 ∧
    fmtDecimals tinyReport.ema50_4h = some 3 ∧
    fmtDecimals tinyReport.atr3_field = some 3 ∧
    fmtDecimals tinyReport.atr14_field = some 3 ∧
    fmtDecimals tinyReport.current_volume = some 3 ∧
    fmtDecimals tinyReport.average_volume = some 3 ∧
    fmtDecimals tinyReport.bid_vol = some 1 ∧
    fmtDecimals tinyReport.ask_vol = some 1 ∧
    fmtDecimals tinyReport.imbalance = some 3 ∧
    fmtDecimals tinyReport.taker_buy_latest = some 1 ∧
    fmtDecimals tinyReport.taker_buy_share = some 1 ∧
    fmtDecimals tinyReport.long_liq = none ∧
    fmtDecimals tinyReport.short_liq = none ∧
    fmtDecimals tinyReport.atr_regime = some 1 :=
  C3_precision_amended tinyBag bybitFallback [0, 0] [0, 0] Fetch.fail tinyReport
    (by simp [mainRun, tinyBag, tinyReport])

end BtcFeed
